import Mathlib

/-!
Verification development for the data-analyst agent repository
(`agent.py`, `category_tools.py`, `initialize_embeddings.py` and the
modular `src/` package).  Python strings are modelled as lists of
characters (`Str`); the string primitives used by the source
(`strip`, `upper`, `lower`, `split`, `startswith`, substring search)
are defined below by structural recursion so that every definition
evaluates inside the kernel.  Case mapping is modelled on the ASCII
range (Lean's `Char.toUpper`/`Char.toLower`), which covers every
case-sensitive comparison the source performs.
-/

/-- Python strings, modelled as lists of characters. -/
abbrev Str := List Char

/-- Whitespace characters removed by Python `str.strip()`. -/
def isSpaceChar (c : Char) : Bool :=
  c = ' ' || c = '\t' || c = '\n' || c = '\r' || c = '\x0b' || c = '\x0c'

/-- Remove leading whitespace (the left half of Python `strip`). -/
def stripLeft : Str → Str
  | [] => []
  | c :: t => if isSpaceChar c then stripLeft t else c :: t

/-- Remove trailing whitespace (the right half of Python `strip`). -/
def stripRight : Str → Str
  | [] => []
  | c :: t =>
    match stripRight t with
    | [] => if isSpaceChar c then [] else [c]
    | r => c :: r

/-- Python `str.strip()`. -/
def pyStrip (s : Str) : Str := stripRight (stripLeft s)

/-- Python `str.upper()` (ASCII case mapping). -/
def pyUpper (s : Str) : Str := s.map Char.toUpper

/-- Python `str.lower()` (ASCII case mapping). -/
def pyLower (s : Str) : Str := s.map Char.toLower

/-- Python `str.split(sep)` for a one-character separator. -/
def splitChar (sep : Char) : Str → List Str
  | [] => [[]]
  | c :: t =>
    if c = sep then [] :: splitChar sep t
    else
      match splitChar sep t with
      | [] => [[c]]
      | h :: r => (c :: h) :: r

/-- Python `sep.join(parts)` for a one-character separator. -/
def joinWith (sep : Char) : List Str → Str
  | [] => []
  | [x] => x
  | x :: xs => x ++ sep :: joinWith sep xs

/-- Python `pat in hay` (substring containment). -/
def containsSubL : Str → Str → Bool
  | hay, pat =>
    match hay with
    | [] => pat.isEmpty
    | _ :: t => pat.isPrefixOf hay || containsSubL t pat

/-- Python `hay.find(pat)`, with `none` for Python's `-1`. -/
def findSubL : Str → Str → Option Nat
  | hay, pat =>
    match hay with
    | [] => if pat.isEmpty then some 0 else none
    | _ :: t =>
      if pat.isPrefixOf hay then some 0
      else (findSubL t pat).map (· + 1)

/-- Python `line.split(sep, 1)` at the first colon: `none` when no colon
occurs (Python returns the one-element list), otherwise the parts before
and after the first `:`. -/
def splitFirstColon : Str → Option (Str × Str)
  | [] => none
  | c :: t =>
    if c = ':' then some ([], t)
    else
      match splitFirstColon t with
      | none => none
      | some (a, b) => some (c :: a, b)

/-! ## `src/src/nodes/sql_generator.py` — `extract_sql_from_content` -/

/-- Test of `line.strip().upper().startswith('SQL:')` from
`extract_sql_from_content`. -/
def sqlHeaderLine (line : Str) : Bool :=
  ("SQL:".data).isPrefixOf (pyUpper (pyStrip line))

/-- Test of `line.strip().upper().startswith(('REASONING:', 'EXPLANATION:',
'NOTE:'))` from `extract_sql_from_content`. -/
def stopHeaderLine (line : Str) : Bool :=
  ("REASONING:".data).isPrefixOf (pyUpper (pyStrip line))
  || ("EXPLANATION:".data).isPrefixOf (pyUpper (pyStrip line))
  || ("NOTE:".data).isPrefixOf (pyUpper (pyStrip line))

/-- The line loop of `extract_sql_from_content`: walks the lines with the
`capturing` flag, accumulating `sql_lines`; a stop header while capturing
breaks out of the loop (discarding the remaining lines). -/
def extractLoop : List Str → Bool → List Str
  | [], _ => []
  | line :: rest, capturing =>
    if sqlHeaderLine line then
      match splitFirstColon line with
      | some (_, after) =>
        if (pyStrip after).isEmpty then extractLoop rest true
        else pyStrip after :: extractLoop rest true
      | none => extractLoop rest true
    else if capturing && !(pyStrip line).isEmpty then
      if stopHeaderLine line then []
      else line :: extractLoop rest capturing
    else if capturing && (pyStrip line).isEmpty then
      line :: extractLoop rest capturing
    else
      extractLoop rest capturing

/-- One step of the fallback truncation loop: `if stop_word in
sql_part.upper(): sql_part = sql_part[:sql_part.upper().find(stop_word)]`. -/
def truncAtStop (s : Str) (stop : Str) : Str :=
  match findSubL (pyUpper s) stop with
  | some i => s.take i
  | none => s

/-- `extract_sql_from_content` (src/src/nodes/sql_generator.py, lines
198-240): `None` on empty content; otherwise collect the lines following
an `SQL:` header, falling back first to the text from the first `SELECT`
(truncated at a stop word) and finally to the whole content stripped. -/
def extract_sql_from_content (content : Str) : Option Str :=
  if content.isEmpty then none
  else
    let sqlLines := extractLoop (splitChar '\n' content) false
    if !sqlLines.isEmpty then some (pyStrip (joinWith '\n' sqlLines))
    else if containsSubL (pyUpper content) ("SELECT".data) then
      match findSubL (pyUpper content) ("SELECT".data) with
      | some i =>
        some (pyStrip (truncAtStop (truncAtStop (truncAtStop (content.drop i)
          ("REASONING:".data)) ("EXPLANATION:".data)) ("NOTE:".data)))
      | none => some (pyStrip content)
    else some (pyStrip content)

lemma extractLoop_eq_nil (lines : List Str)
    (h : ∀ l ∈ lines, sqlHeaderLine l = false) :
    extractLoop lines false = [] := by
  induction lines with
  | nil => rfl
  | cons l rest ih =>
    have hl : sqlHeaderLine l = false := h l (List.mem_cons_self l rest)
    have hrest : ∀ x ∈ rest, sqlHeaderLine x = false :=
      fun x hx => h x (List.mem_cons_of_mem l hx)
    simp [extractLoop, hl, ih hrest]

lemma extract_ne_none (content : Str) (h : content ≠ []) :
    extract_sql_from_content content ≠ none := by
  unfold extract_sql_from_content
  simp only [List.isEmpty_iff, h, if_false]
  split
  · simp
  · split
    · split <;> simp
    · simp

/-- C10: `extract_sql_from_content` returns `None` exactly on empty
content; for nonempty content with no line whose stripped form starts
(case-insensitively) with `SQL:` and with no occurrence of `SELECT` in
any case, it returns the whole content stripped of surrounding
whitespace — the modular generator then stores that text as the query
unchanged. -/
theorem C10_extract_prose (content : Str) :
    (extract_sql_from_content content = none ↔ content = [])
    ∧ (content ≠ [] →
        (∀ line ∈ splitChar '\n' content, sqlHeaderLine line = false) →
        containsSubL (pyUpper content) ("SELECT".data) = false →
        extract_sql_from_content content = some (pyStrip content)) := by
  constructor
  · constructor
    · intro hnone
      by_contra hne
      exact extract_ne_none content hne hnone
    · intro h; subst h; rfl
  · intro hne hnosql hnosel
    unfold extract_sql_from_content
    simp only [List.isEmpty_iff, hne, if_false]
    rw [extractLoop_eq_nil _ hnosql]
    simp [hnosel]

/-- Witness for C10 at the concrete prose content `"hello world"`. -/
theorem C10_witness :
    extract_sql_from_content ("hello world".data)
      = some (pyStrip ("hello world".data)) :=
  (C10_extract_prose ("hello world".data)).2 (by decide) (by decide) (by decide)

/-! ## `src/src/tools/category_tools.py` — the Category Resolver

`CategorySearchTools._search_similar` runs inside a `try` block: a missing
collection (`get_collection` raising), an empty collection (the explicit
`count() == 0` check), an embedding-provider failure
(`raise_for_status`) and a store failure all produce `[]`.  The external
collaborators are modelled explicitly: the collection lookup as an
`Option` carrying the collection's document count, the embedding call as
an `Except`, and the vector store's nearest-neighbour answer as a list of
(document, cosine distance) hits.  Distances and similarities are modelled
as rationals. -/

structure QueryHit where
  doc : Str
  distance : ℚ
  deriving DecidableEq

structure SimilarityMatch where
  value : Str
  similarity : ℚ
  deriving DecidableEq

/-- `SIMILARITY_THRESHOLD` from `src/src/config/settings.py` (line 23). -/
def SIMILARITY_THRESHOLD : ℚ := 3 / 10

/-- Environment of one `_search_similar` call: the collection lookup
(`none` models `get_collection` raising for a missing collection, `some
count` its document count), the embedding-provider response for the
term, and the store's nearest-neighbour hits for the produced query
embedding. -/
structure ResolveEnv where
  collection : Option Nat
  embedResult : Except Str (List ℚ)
  queryHits : List QueryHit

/-- The filter loop of `_search_similar`: `similarity = 1 - distance`,
kept when `similarity >= self.similarity_threshold`, in the order the
store returned the hits. -/
def filterByThreshold (hits : List QueryHit) (threshold : ℚ) : List SimilarityMatch :=
  (hits.map fun h => ({ value := h.doc, similarity := 1 - h.distance } : SimilarityMatch)).filter
    fun m => decide (threshold ≤ m.similarity)

/-- `CategorySearchTools._search_similar`
(src/src/tools/category_tools.py, lines 53-90). -/
def search_similar (env : ResolveEnv) (threshold : ℚ) : List SimilarityMatch :=
  match env.collection with
  | none => []
  | some count =>
    if count = 0 then []
    else
      match env.embedResult with
      | .error _ => []
      | .ok _ => filterByThreshold env.queryHits threshold

/-- The textual fallback of the four tool wrappers, e.g.
`f"Busca por similaridade não disponível para '{query}'. Use padrões
LIKE na consulta SQL."`. -/
def resolverFallbackMessage (query : Str) : Str :=
  ("Busca por similaridade não disponível para \x27".data) ++ query
    ++ ("\x27. Use padrões LIKE na consulta SQL.".data)

/-- Reply of a tool wrapper: either the textual fallback message, or the
match list (whose `%.3f` float rendering is abstracted by carrying the
query and matches themselves). -/
inductive ToolReply where
  | message (text : Str)
  | similarList (query : Str) (results : List SimilarityMatch)
  deriving DecidableEq

/-- `get_nome_unidade_organizacional`
(src/src/tools/category_tools.py, lines 95-112): the fallback message on
an empty result list, the formatted match list otherwise. -/
def get_nome_unidade_organizacional (env : ResolveEnv) (query : Str) : ToolReply :=
  let results := search_similar env SIMILARITY_THRESHOLD
  if results.isEmpty then .message (resolverFallbackMessage query)
  else .similarList query results

/-- C5: every `_search_similar` result has similarity `= 1 - distance` at
or above the 0.3 threshold, the results are ordered by descending
similarity, and there are at most `n_results = 5` of them — given the
vector store's nearest-neighbour contract: hits ordered by ascending
cosine distance and at most `n_results` of them. -/
theorem C5_resolver_filtered_sorted_bounded (env : ResolveEnv)
    (hsorted : env.queryHits.Pairwise (fun a b => a.distance ≤ b.distance))
    (hlen : env.queryHits.length ≤ 5) :
    (∀ m ∈ search_similar env SIMILARITY_THRESHOLD, SIMILARITY_THRESHOLD ≤ m.similarity)
    ∧ (search_similar env SIMILARITY_THRESHOLD).Pairwise (fun a b => b.similarity ≤ a.similarity)
    ∧ (search_similar env SIMILARITY_THRESHOLD).length ≤ 5 := by
  unfold search_similar
  match env.collection with
  | none => simp
  | some count =>
    by_cases hc : count = 0
    · simp [hc]
    · simp only [hc, if_false]
      match env.embedResult with
      | .error e => simp
      | .ok v =>
        simp only
        refine ⟨?_, ?_, ?_⟩
        · intro m hm
          have := (List.mem_filter.mp hm).2
          exact of_decide_eq_true this
        · apply List.Pairwise.filter
          rw [List.pairwise_map]
          exact hsorted.imp (by intro a b h; simp only; linarith)
        · calc (filterByThreshold env.queryHits SIMILARITY_THRESHOLD).length
              ≤ (env.queryHits.map fun h =>
                  ({ value := h.doc, similarity := 1 - h.distance } : SimilarityMatch)).length :=
                List.length_filter_le _ _
            _ = env.queryHits.length := List.length_map _ _
            _ ≤ 5 := hlen

/-- Witness for C5 on a concrete two-hit store response. -/
theorem C5_witness :
    (∀ m ∈ search_similar ⟨some 2, .ok [1], [⟨"Iluminação Pública".data, 0⟩, ⟨"Iluminação de Praça".data, 1⟩]⟩ SIMILARITY_THRESHOLD,
        SIMILARITY_THRESHOLD ≤ m.similarity)
    ∧ (search_similar ⟨some 2, .ok [1], [⟨"Iluminação Pública".data, 0⟩, ⟨"Iluminação de Praça".data, 1⟩]⟩ SIMILARITY_THRESHOLD).Pairwise
        (fun a b => b.similarity ≤ a.similarity)
    ∧ (search_similar ⟨some 2, .ok [1], [⟨"Iluminação Pública".data, 0⟩, ⟨"Iluminação de Praça".data, 1⟩]⟩ SIMILARITY_THRESHOLD).length ≤ 5 :=
  C5_resolver_filtered_sorted_bounded _ (by decide) (by decide)

/-- C7: a missing collection, an empty collection, and an
embedding-provider failure each make `_search_similar` return the empty
list rather than raising, and make the tool wrapper return the textual
"não disponível … Use padrões LIKE" message. -/
theorem C7_resolver_absorbs_failures (env : ResolveEnv) (query : Str)
    (h : env.collection = none ∨ env.collection = some 0
        ∨ ∃ e, env.embedResult = .error e) :
    search_similar env SIMILARITY_THRESHOLD = []
    ∧ get_nome_unidade_organizacional env query
        = .message (resolverFallbackMessage query) := by
  have hempty : search_similar env SIMILARITY_THRESHOLD = [] := by
    rcases h with h | h | ⟨e, h⟩
    · simp [search_similar, h]
    · simp [search_similar, h]
    · unfold search_similar
      cases env.collection with
      | none => rfl
      | some count =>
        by_cases h0 : count = 0
        · simp [h0]
        · simp [h0, h]
  exact ⟨hempty, by simp [get_nome_unidade_organizacional, hempty]⟩

/-- Witness for C7 at a missing collection and the term `"iluminação"`. -/
theorem C7_witness :
    search_similar ⟨none, .ok [1], []⟩ SIMILARITY_THRESHOLD = []
    ∧ get_nome_unidade_organizacional ⟨none, .ok [1], []⟩ ("iluminação".data)
        = .message (resolverFallbackMessage ("iluminação".data)) :=
  C7_resolver_absorbs_failures _ _ (Or.inl rfl)

/-! ## The Router (`src/src/nodes/router.py` and `agent.py`)

The classification call is modelled as its outcome: `Except` for a raised
transport error, and on success the HTTP status code together with the
response message content.  Both routers use the question only to build
the classification prompt, never to pick the route, so they are given the
question as an explicit (unused) argument to state the empty-question
policy. -/

structure HttpReply where
  statusCode : Nat
  content : Str
  deriving DecidableEq

/-- `router_node` (src/src/nodes/router.py, lines 10-48): any raised
error and any non-200 status route to `"conversational"`; a 200 response
routes to `"data_query"` exactly when `"data_query" in
decision` for `decision = content.strip().lower()`. -/
def modular_router_node (question : Str) (resp : Except Str HttpReply) : Str :=
  match resp with
  | .error _ => "conversational".data
  | .ok r =>
    if r.statusCode = 200 then
      if containsSubL (pyLower (pyStrip r.content)) ("data_query".data) then
        "data_query".data
      else "conversational".data
    else "conversational".data

/-- `DataAnalystAgent.router_node` (agent.py, lines 187-220): the
classification call is not wrapped in `try`, so a raised error
propagates; on success `intent = response.content.strip().lower()` is
kept only when it equals one of the two labels, anything else defaults
to `"conversational"`. -/
def agent_router_node (question : Str) (llmResp : Except Str Str) : Except Str Str :=
  match llmResp with
  | .error e => .error e
  | .ok content =>
    let intent := pyLower (pyStrip content)
    if intent = "data_query".data ∨ intent = "conversational".data then .ok intent
    else .ok ("conversational".data)

/-- C8 counterexample: when the classification call fails,
`agent.py`'s `router_node` does not assign the conversational route — the
exception propagates out of the node. -/
theorem C8_counterexample :
    agent_router_node ("Quantos chamados foram abertos?".data)
        (.error ("connection error".data))
      = .error ("connection error".data)
    ∧ agent_router_node ("Quantos chamados foram abertos?".data)
        (.error ("connection error".data))
      ≠ .ok ("conversational".data) := by
  exact ⟨rfl, by simp [agent_router_node]⟩

/-- C8 amended: in the modular router a raised error, a non-2xx response
and any 200-content not containing `"data_query"` all yield the
conversational route; in `agent.py`'s router any successful content other
than the `data_query` label yields the conversational route, but a failed
classification call propagates instead of routing; the route is
independent of the question text, so an empty question routes
identically. -/
theorem C8_amended_router_defaults (q e content : Str) (r1 r2 : HttpReply)
    (h1 : r1.statusCode ≠ 200)
    (h2 : containsSubL (pyLower (pyStrip r2.content)) ("data_query".data) = false)
    (h3 : pyLower (pyStrip content) ≠ "data_query".data) :
    modular_router_node q (.error e) = "conversational".data
    ∧ modular_router_node q (.ok r1) = "conversational".data
    ∧ (r2.statusCode = 200 → modular_router_node q (.ok r2) = "conversational".data)
    ∧ agent_router_node q (.ok content) = .ok ("conversational".data)
    ∧ modular_router_node [] (.ok r2) = modular_router_node q (.ok r2) := by
  refine ⟨rfl, by simp [modular_router_node, h1], ?_, ?_, rfl⟩
  · intro h200
    simp [modular_router_node, h200, h2]
  · unfold agent_router_node
    by_cases hc : pyLower (pyStrip content) = "conversational".data
    · simp [h3, hc]
    · simp [h3, hc]

/-- Witness for C8's amended statement at concrete inputs (empty
question, failed call, status 500, ambiguous content). -/
theorem C8_witness :
    modular_router_node [] (.error ("timeout".data)) = "conversational".data
    ∧ modular_router_node [] (.ok ⟨500, "data_query".data⟩) = "conversational".data
    ∧ (HttpReply.statusCode ⟨200, "maybe".data⟩ = 200 →
        modular_router_node [] (.ok ⟨200, "maybe".data⟩) = "conversational".data)
    ∧ agent_router_node [] (.ok ("certainly a data question".data))
        = .ok ("conversational".data)
    ∧ modular_router_node [] (.ok ⟨200, "maybe".data⟩)
        = modular_router_node [] (.ok ⟨200, "maybe".data⟩) :=
  C8_amended_router_defaults [] ("timeout".data) ("certainly a data question".data)
    ⟨500, "data_query".data⟩ ⟨200, "maybe".data⟩ (by decide) (by decide) (by decide)

/-! ## The workflow graph (`agent.py`, `_build_graph`, lines 152-185)

The compiled LangGraph is modelled as its transition map: entry point
`router`, conditional edges from `router` through `route_intent` (which
returns `state["intent"]`), the linear data path
`sql_generator → sql_executor → response_synthesizer → END`, and
`conversational_responder → END`.  The BigQuery data-execution
collaborator is invoked only inside the `sql_executor` node. -/

inductive GraphNode where
  | router
  | sql_generator
  | sql_executor
  | response_synthesizer
  | conversational_responder
  | endNode
  deriving DecidableEq

/-- `route_intent` (agent.py, lines 222-224). -/
def route_intent (intent : Str) : Str := intent

/-- The edge map built by `_build_graph`: `none` for a missing edge (an
unmapped conditional label, or the graph end). -/
def nextNode (n : GraphNode) (intent : Str) : Option GraphNode :=
  match n with
  | .router =>
    if route_intent intent = "data_query".data then some .sql_generator
    else if route_intent intent = "conversational".data then some .conversational_responder
    else none
  | .sql_generator => some .sql_executor
  | .sql_executor => some .response_synthesizer
  | .response_synthesizer => some .endNode
  | .conversational_responder => some .endNode
  | .endNode => none

/-- Nodes visited from `start`, following edges for a fixed intent (fuel
bounds the walk; 5 covers the longest path of the graph). -/
def pathFrom (start : GraphNode) (intent : Str) : Nat → List GraphNode
  | 0 => [start]
  | fuel + 1 =>
    start :: (match nextNode start intent with
      | none => []
      | some m => pathFrom m intent fuel)

/-- The full node sequence of one invocation, entering at `router`. -/
def workflowPath (intent : Str) : List GraphNode := pathFrom .router intent 5

/-- C9: a question routed `conversational` flows
`router → conversational_responder → END`, never visiting
`sql_generator` or `sql_executor` — hence never invoking the BigQuery
execution collaborator, which only the `sql_executor` node calls. -/
theorem C9_conversational_bypasses_sql (intent : Str)
    (h : intent = "conversational".data) :
    workflowPath intent
      = [.router, .conversational_responder, .endNode]
    ∧ GraphNode.sql_generator ∉ workflowPath intent
    ∧ GraphNode.sql_executor ∉ workflowPath intent := by
  subst h; decide

/-- Witness for C9 at the literal conversational intent. -/
theorem C9_witness :
    workflowPath ("conversational".data)
      = [.router, .conversational_responder, .endNode]
    ∧ GraphNode.sql_generator ∉ workflowPath ("conversational".data)
    ∧ GraphNode.sql_executor ∉ workflowPath ("conversational".data) :=
  C9_conversational_bypasses_sql _ rfl

/-! ## The SQL executor nodes

The BigQuery data-execution collaborator is modelled as its outcome: the
row list it produces, or the raised execution error.  `agent.py`'s
`sql_executor_node` (lines 449-484) has its `try`/`except` block
commented out, so a raised execution error propagates out of the node;
the modular `src/src/nodes/sql_executor.py` catches it and writes it into
the state. -/

/-- Rows returned by the warehouse: a list of column-name/value maps. -/
abbrev RowList := List (List (Str × Str))

/-- The state-update fields an executor node produces. -/
structure ExecUpdate where
  data_result : RowList
  error : Option Str
  deriving DecidableEq

/-- `sql_executor_node` (src/src/nodes/sql_executor.py, lines 8-53):
empty query text is rejected up front; a successful execution stores the
rows; a raised execution error is caught and stored as
`"Erro ao executar SQL: " + str(e)` together with an empty result list. -/
def modular_sql_executor_node (sql_query : Option Str) (exec : Except Str RowList) :
    ExecUpdate :=
  match sql_query with
  | none => { data_result := [], error := some ("SQL query vazia ou inválida".data) }
  | some q =>
    if (pyStrip q).isEmpty then
      { data_result := [], error := some ("SQL query vazia ou inválida".data) }
    else
      match exec with
      | .ok rows => { data_result := rows, error := none }
      | .error e =>
        { data_result := [], error := some (("Erro ao executar SQL: ".data) ++ e) }

/-- `DataAnalystAgent.sql_executor_node` (agent.py, lines 449-484): the
same empty-query guard, but the `try`/`except` around the BigQuery call
is commented out (lines 461, 475-482), so a raised execution error
propagates out of the node instead of being stored. -/
def agent_sql_executor_node (sql_query : Option Str) (exec : Except Str RowList) :
    Except Str ExecUpdate :=
  match sql_query with
  | none => .ok { data_result := [], error := some ("SQL query vazia ou inválida".data) }
  | some q =>
    if (pyStrip q).isEmpty then
      .ok { data_result := [], error := some ("SQL query vazia ou inválida".data) }
    else
      match exec with
      | .ok rows => .ok { data_result := rows, error := none }
      | .error e => .error e

/-- C1 (code bug): at a failing execution, `agent.py`'s executor node
propagates the raised error instead of capturing it — the run aborts
before `response_synthesizer` — while the modular executor node captures
exactly the claimed state (the error string and an empty result list),
and the graph edge from `sql_executor` is unconditionally
`response_synthesizer`. -/
theorem C1_executor_error_behaviour :
    agent_sql_executor_node (some ("SELECT x FROM missing_table".data))
        (.error ("table not found".data))
      = .error ("table not found".data)
    ∧ modular_sql_executor_node (some ("SELECT x FROM missing_table".data))
        (.error ("table not found".data))
      = { data_result := [],
          error := some (("Erro ao executar SQL: ".data) ++ ("table not found".data)) }
    ∧ nextNode .sql_executor ("data_query".data) = some .response_synthesizer := by
  refine ⟨?_, ?_, rfl⟩ <;> rfl

/-! ## `agent.py` `sql_generator_node` — validity check, pattern
fallback and code-fence trimming (lines 394-441)

`sql0` below is the query text extracted from the model response
(`parts[1].strip()` after splitting on `"SQL:"`, or the whole response).
The node then (1) replaces it by a keyword-matched fallback template when
it is empty, the `"[]"` placeholder, or contains `"SELECT NULL"`, and
(2) strips surrounding whitespace and `"```sql"`/`"```"` code-fence
markers before storing it in `state["sql_query"]`. -/

/-- The validity check of agent.py line 395: `not sql_query or
sql_query.strip() == "" or sql_query.strip() == "[]" or "SELECT NULL" in
sql_query.upper()`. -/
def agentSqlInvalid (s : Str) : Bool :=
  s.isEmpty || (pyStrip s).isEmpty || decide (pyStrip s = "[]".data)
    || containsSubL (pyUpper s) ("SELECT NULL".data)

/-- Fallback template for questions mentioning `"iluminação"`
(agent.py, lines 400-407). -/
def FALLBACK_ILUMINACAO : Str :=
  ("\n                SELECT subtipo, COUNT(*) as total\n                FROM `datario.adm_central_atendimento_1746.chamado`\n                WHERE (LOWER(tipo) LIKE \x27%iluminação%\x27 OR LOWER(subtipo) LIKE \x27%lâmpada%\x27 OR LOWER(subtipo) LIKE \x27%poste%\x27)\n                GROUP BY subtipo\n                ORDER BY total DESC\n                LIMIT 5\n                ").data

/-- Fallback template for questions mentioning `"buraco"`
(agent.py, lines 409-418). -/
def FALLBACK_BURACO : Str :=
  ("\n                SELECT b.nome as bairro, COUNT(*) as chamados\n                FROM `datario.adm_central_atendimento_1746.chamado` c\n                JOIN `datario.dados_mestres.bairro` b ON c.id_bairro = b.id_bairro\n                WHERE (LOWER(c.tipo) LIKE \x27%pavimentação%\x27 OR LOWER(c.subtipo) LIKE \x27%buraco%\x27 OR LOWER(c.subtipo) LIKE \x27%via%\x27)\n                AND DATE(c.data_inicio) BETWEEN \x272023-01-01\x27 AND \x272023-12-31\x27\n                GROUP BY b.nome\n                ORDER BY chamados DESC\n                LIMIT 3\n                ").data

/-- Fallback template for questions mentioning `"fiscalização"` and
`"estacionamento"` (agent.py, lines 420-427). -/
def FALLBACK_FISCALIZACAO : Str :=
  ("\n                SELECT nome_unidade_organizacional, COUNT(*) as total\n                FROM `datario.adm_central_atendimento_1746.chamado`\n                WHERE (LOWER(subtipo) LIKE \x27%fiscalização%\x27 AND LOWER(subtipo) LIKE \x27%estacionamento%\x27)\n                GROUP BY nome_unidade_organizacional\n                ORDER BY total DESC\n                LIMIT 1\n                ").data

/-- The self-describing message-only query used when no keyword matches
(agent.py, line 429). -/
def FALLBACK_SEM_CONSULTA : Str :=
  ("SELECT \x27Não foi possível gerar consulta para esta pergunta\x27 as mensagem").data

/-- The keyword-matched fallback of agent.py lines 398-429, keyed on
`state["question"].lower()`. -/
def keywordFallback (question : Str) : Str :=
  let ql := pyLower question
  if containsSubL ql ("iluminação".data) then FALLBACK_ILUMINACAO
  else if containsSubL ql ("buraco".data) then FALLBACK_BURACO
  else if containsSubL ql ("fiscalização".data) && containsSubL ql ("estacionamento".data) then
    FALLBACK_FISCALIZACAO
  else FALLBACK_SEM_CONSULTA

/-- The code-fence trimming of agent.py lines 433-441: strip, drop a
leading `"```sql"`, drop a trailing `"```"`, strip again. -/
def stripCodeFence (s : Str) : Str :=
  let s1 := pyStrip s
  let s2 := if ("```sql".data).isPrefixOf s1 then s1.drop 6 else s1
  let s3 := if ("```".data).isSuffixOf s2 then s2.take (s2.length - 3) else s2
  pyStrip s3

/-- The value stored in `state["sql_query"]` by `sql_generator_node`
from the extracted query text `sql0` (agent.py, lines 394-444). -/
def agent_store_sql (question sql0 : Str) : Str :=
  let sql1 := if agentSqlInvalid sql0 then keywordFallback question else sql0
  stripCodeFence sql1

/-- C4 counterexample: the code-fence trimming runs after the validity
check, so an extracted query consisting of the placeholder (or nothing)
wrapped in code fences passes the check and is stored as the bare
placeholder `"[]"` (or as the empty string). -/
theorem C4_counterexample :
    agent_store_sql ("Quantos chamados foram abertos?".data) ("```sql\n[]```".data)
      = "[]".data
    ∧ agent_store_sql ("Quantos chamados foram abertos?".data) ("```sql\n```".data)
      = [] := by
  exact ⟨rfl, rfl⟩

lemma stripRight_cons_eq (c : Char) (t : Str) :
    stripRight (c :: t) =
      match stripRight t with
      | [] => if isSpaceChar c then [] else [c]
      | r => c :: r := rfl

lemma stripRight_idem (l : Str) : stripRight (stripRight l) = stripRight l := by
  induction l with
  | nil => rfl
  | cons c t ih =>
    cases h : stripRight t with
    | nil =>
      by_cases hc : isSpaceChar c
      · simp [stripRight, h, hc]
      · simp [stripRight, h, hc]
    | cons x xs =>
      have hr : stripRight (x :: xs) = x :: xs := h ▸ ih
      rw [stripRight_cons_eq c t, h]
      show stripRight (c :: x :: xs) = c :: x :: xs
      rw [stripRight_cons_eq c (x :: xs), hr]

lemma stripLeft_shape (s : Str) :
    stripLeft s = [] ∨ ∃ c t, stripLeft s = c :: t ∧ isSpaceChar c = false := by
  induction s with
  | nil => exact Or.inl rfl
  | cons c t ih =>
    by_cases hc : isSpaceChar c
    · simpa [stripLeft, hc] using ih
    · exact Or.inr ⟨c, t, by simp [stripLeft, hc], by simp [hc]⟩

lemma stripRight_cons_shape (c : Char) (t : Str) :
    stripRight (c :: t) = [] ∨ ∃ r, stripRight (c :: t) = c :: r := by
  unfold stripRight
  cases stripRight t with
  | nil =>
    by_cases hc : isSpaceChar c
    · exact Or.inl (by simp [hc])
    · exact Or.inr ⟨[], by simp [hc]⟩
  | cons x xs => exact Or.inr ⟨x :: xs, rfl⟩

lemma stripLeft_of_head (c : Char) (t : Str) (hc : isSpaceChar c = false) :
    stripLeft (c :: t) = c :: t := by simp [stripLeft, hc]

lemma pyStrip_idem (s : Str) : pyStrip (pyStrip s) = pyStrip s := by
  unfold pyStrip
  rcases stripLeft_shape s with h | ⟨c, t, h, hc⟩
  · rw [h]; rfl
  · rw [h]
    rcases stripRight_cons_shape c t with h2 | ⟨r, h2⟩
    · rw [h2]; rfl
    · rw [h2, stripLeft_of_head c r hc, ← h2, stripRight_idem, h2]

lemma keywordFallback_cases (q : Str) :
    keywordFallback q = FALLBACK_ILUMINACAO ∨ keywordFallback q = FALLBACK_BURACO
    ∨ keywordFallback q = FALLBACK_FISCALIZACAO
    ∨ keywordFallback q = FALLBACK_SEM_CONSULTA := by
  simp only [keywordFallback]
  split_ifs <;> simp

set_option maxRecDepth 40000 in
lemma fallback_store_ok (q : Str) :
    stripCodeFence (keywordFallback q) ≠ [] ∧ stripCodeFence (keywordFallback q) ≠ "[]".data := by
  rcases keywordFallback_cases q with h | h | h | h <;> rw [h] <;> exact ⟨by decide, by decide⟩

/-- C4 amended: whenever the extracted query text is empty, the `"[]"`
placeholder, or contains `"SELECT NULL"`, the generator substitutes the
keyword-matched fallback template (or the self-describing message-only
query), and the stored fallback is never empty and never the
placeholder; but because the code-fence trimming runs after the validity
check, a valid-looking query is stored unchanged only up to fence
trimming, and is guaranteed nonempty and non-placeholder only when it
does not carry a leading ```` ```sql ```` or trailing ```` ``` ````
marker (otherwise the stored text can degrade to `""` or `"[]"`, as the
counterexample shows). -/
theorem C4_fallback_substitution (question sBad sGood : Str)
    (hbad : agentSqlInvalid sBad = true)
    (hgood : agentSqlInvalid sGood = false)
    (hnf1 : ("```sql".data).isPrefixOf (pyStrip sGood) = false)
    (hnf2 : ("```".data).isSuffixOf (pyStrip sGood) = false) :
    agent_store_sql question sBad = stripCodeFence (keywordFallback question)
    ∧ agent_store_sql question sBad ≠ []
    ∧ agent_store_sql question sBad ≠ "[]".data
    ∧ agent_store_sql question sGood = pyStrip sGood
    ∧ agent_store_sql question sGood ≠ []
    ∧ agent_store_sql question sGood ≠ "[]".data := by
  have hstore_bad : agent_store_sql question sBad = stripCodeFence (keywordFallback question) := by
    simp [agent_store_sql, hbad]
  have hstore_good : agent_store_sql question sGood = pyStrip sGood := by
    simp only [agent_store_sql, hgood, Bool.false_eq_true, if_false, stripCodeFence,
      hnf1, hnf2]
    exact pyStrip_idem sGood
  have hne : (pyStrip sGood).isEmpty = false ∧ pyStrip sGood ≠ "[]".data := by
    unfold agentSqlInvalid at hgood
    simp only [Bool.or_eq_false_iff, decide_eq_false_iff_not] at hgood
    exact ⟨hgood.1.1.2, hgood.1.2⟩
  refine ⟨hstore_bad, ?_, ?_, hstore_good, ?_, ?_⟩
  · rw [hstore_bad]; exact (fallback_store_ok question).1
  · rw [hstore_bad]; exact (fallback_store_ok question).2
  · rw [hstore_good]
    intro h
    rw [h] at hne
    simp at hne
  · rw [hstore_good]; exact hne.2

/-- Witness for C4's amended statement: an invalid extraction (`"[]"`)
triggers the fallback and a plain `SELECT` query is stored stripped. -/
theorem C4_witness :
    agent_store_sql ("Qual o subtipo mais comum de iluminação?".data) ("[]".data)
      = stripCodeFence (keywordFallback ("Qual o subtipo mais comum de iluminação?".data))
    ∧ agent_store_sql ("Qual o subtipo mais comum de iluminação?".data) ("[]".data) ≠ []
    ∧ agent_store_sql ("Qual o subtipo mais comum de iluminação?".data) ("[]".data) ≠ "[]".data
    ∧ agent_store_sql ("Qual o subtipo mais comum de iluminação?".data)
        ("SELECT COUNT(*) FROM tabela".data)
      = pyStrip ("SELECT COUNT(*) FROM tabela".data)
    ∧ agent_store_sql ("Qual o subtipo mais comum de iluminação?".data)
        ("SELECT COUNT(*) FROM tabela".data) ≠ []
    ∧ agent_store_sql ("Qual o subtipo mais comum de iluminação?".data)
        ("SELECT COUNT(*) FROM tabela".data) ≠ "[]".data :=
  C4_fallback_substitution ("Qual o subtipo mais comum de iluminação?".data)
    ("[]".data) ("SELECT COUNT(*) FROM tabela".data)
    (by decide) (by decide) (by decide) (by decide)

/-! ## The Vector Index Builder
(`initialize_embeddings.py` and `src/src/utils/initialize_embeddings.py`)

Embedding vectors are modelled as lists of rationals.  Thread scheduling
enters only through the order in which `as_completed` yields the batch
futures, so both builders are parameterised by `completion`: the batch
list `[(batch_index, batch_texts), …]` in completion order — a
permutation of the original enumerated batch list.  The embedding
provider is modelled as a function from the batch texts (and, for the
modular builder's retry loop, the attempt number) to its outcome. -/

abbrev Vec := List ℚ

abbrev EmbedBatch := List Vec

/-- The batch partition `for i in range(0, len(values), batch_size)`
computed with fuel (one step consumes at least one element, so
`l.length` steps always suffice for a positive batch size). -/
def chunkAux (bs : Nat) : Nat → List Str → List (List Str)
  | _, [] => []
  | 0, l => [l]
  | fuel + 1, x :: xs => (x :: xs.take (bs - 1)) :: chunkAux bs fuel (xs.drop (bs - 1))

/-- Partition `l` into consecutive batches of `bs` texts. -/
def chunkList (bs : Nat) (l : List Str) : List (List Str) := chunkAux bs l.length l

/-- `BATCH_SIZE` (src/src/config/settings.py line 37); the monolithic
`create_embeddings_parallel` hard-codes the same `batch_size = 1000`. -/
def BATCH_SIZE : Nat := 1000

/-- One entry of `(id, text, vector)` collections after a rebuild. -/
structure InsertedCollection where
  ids : List Str
  documents : List Str
  embeddings : EmbedBatch
  deriving DecidableEq

/-- The deterministic id `f"{collection_name}_{i}"`. -/
def idFor (collectionName : Str) (i : Nat) : Str :=
  collectionName ++ ("_".data) ++ Nat.toDigits 10 i

/-- `process_batch` inside the monolithic `create_embeddings_parallel`
(initialize_embeddings.py, lines 141-156): one embedding attempt; on an
exception the batch degrades to `[[0.0] * 3072] * len(batch)`. -/
def mono_process_batch (embed : List Str → Except Str EmbedBatch)
    (b : Nat × List Str) : Nat × EmbedBatch :=
  match embed b.2 with
  | .ok es => (b.1, es)
  | .error _ => (b.1, List.replicate b.2.length (List.replicate 3072 (0 : ℚ)))

/-- Insertion into a key-sorted association list (used to model
`for i in sorted(results.keys()): all_embeddings.extend(results[i])`). -/
def insertByKey (x : Nat × EmbedBatch) : List (Nat × EmbedBatch) → List (Nat × EmbedBatch)
  | [] => [x]
  | y :: ys => if x.1 ≤ y.1 then x :: y :: ys else y :: insertByKey x ys

/-- Sort an association list by its keys. -/
def sortByKey : List (Nat × EmbedBatch) → List (Nat × EmbedBatch)
  | [] => []
  | x :: xs => insertByKey x (sortByKey xs)

/-- The monolithic `create_embeddings_parallel`
(initialize_embeddings.py, lines 127-184): the batch results arrive in
completion order, land in the `results` dict keyed by batch index, and
are reassembled by iterating the sorted keys. -/
def mono_create_embeddings_parallel (embed : List Str → Except Str EmbedBatch)
    (completion : List (Nat × List Str)) : EmbedBatch :=
  (sortByKey (completion.map (mono_process_batch embed))).flatMap Prod.snd

/-- The monolithic `initialize_collection`
(initialize_embeddings.py, lines 186-220): documents are the value list
itself, ids are `{collection_name}_{i}` over `range(len(values))`, and
the embeddings come from `create_embeddings_parallel`. -/
def mono_initialize_collection (name : Str) (embed : List Str → Except Str EmbedBatch)
    (values : List Str) (completion : List (Nat × List Str)) : InsertedCollection :=
  { ids := (List.range values.length).map (idFor name)
  , documents := values
  , embeddings := mono_create_embeddings_parallel embed completion }

/-- The filter `[str(text).strip() for text in texts if text and
str(text).strip()]` of the modular `create_embeddings_batch`. -/
def validTexts (texts : List Str) : List Str :=
  (texts.filter (fun t => !t.isEmpty && !(pyStrip t).isEmpty)).map pyStrip

/-- The retry loop of the modular `create_embeddings_batch`: try the
attempts in order, return the first success, and `[]` once the attempt
budget is exhausted. -/
def embedAttempts (provider : Nat → Except Str EmbedBatch) : Nat → Nat → EmbedBatch
  | _, 0 => []
  | attempt, remaining + 1 =>
    match provider attempt with
    | .ok es => es
    | .error _ => embedAttempts provider (attempt + 1) remaining

/-- `create_embeddings_batch`
(src/src/utils/initialize_embeddings.py, lines 77-99): empty or
all-invalid batches embed to `[]`; otherwise up to `max_retries = 3`
provider attempts with backoff, and `[]` after the last failure. -/
def create_embeddings_batch (provider : Nat → List Str → Except Str EmbedBatch)
    (texts : List Str) : EmbedBatch :=
  if texts.isEmpty then []
  else if (validTexts texts).isEmpty then []
  else embedAttempts (fun a => provider a (validTexts texts)) 0 3

/-- The `as_completed` loop of the modular `initialize_collection`
(src/src/utils/initialize_embeddings.py, lines 150-167): texts and
embeddings are extended in completion order, and a batch is kept only
when `embeddings and len(embeddings) == len(texts)`. -/
def modular_assemble (provider : Nat → List Str → Except Str EmbedBatch)
    (completion : List (Nat × List Str)) : List Str × EmbedBatch :=
  completion.foldl
    (fun acc b =>
      let es := create_embeddings_batch provider b.2
      if !es.isEmpty && decide (es.length = b.2.length) then (acc.1 ++ b.2, acc.2 ++ es)
      else acc)
    ([], [])

/-- The bulk insert of the modular `initialize_collection`
(src/src/utils/initialize_embeddings.py, lines 169-187): ids are
`{collection_name}_{i}` over `range(len(all_texts))`; nothing is
inserted when every batch was dropped. -/
def modular_initialize_insert (name : Str)
    (provider : Nat → List Str → Except Str EmbedBatch)
    (completion : List (Nat × List Str)) : Option InsertedCollection :=
  let p := modular_assemble provider completion
  if !p.2.isEmpty && !p.1.isEmpty then
    some { ids := (List.range p.1.length).map (idFor name)
         , documents := p.1
         , embeddings := p.2 }
  else none

/-! ## Collection lifecycle order during a rebuild (C6)

Both `initialize_collection` implementations are modelled as the ordered
trace of their externally visible build events, in program order:
monolithic (initialize_embeddings.py, lines 186-220) — delete, create,
embed the batches, add; modular
(src/src/utils/initialize_embeddings.py, lines 115-187) — early return on
an empty value set, then delete, create, embed the batches, and add only
when something survived. -/

inductive BuildEvent where
  | deleteCollection (name : Str)
  | createCollection (name : Str)
  | embedBatch (idx : Nat)
  | insertDocs (count : Nat)
  deriving DecidableEq

/-- Whether an event is a batch-embedding call. -/
def isEmbedEvent : BuildEvent → Bool
  | .embedBatch _ => true
  | _ => false

/-- Whether an event is the bulk insert. -/
def isInsertEvent : BuildEvent → Bool
  | .insertDocs _ => true
  | _ => false

/-- Event trace of the monolithic `initialize_collection`. -/
def mono_build_trace (name : Str) (values : List Str)
    (completion : List (Nat × List Str)) : List BuildEvent :=
  [.deleteCollection name, .createCollection name]
    ++ completion.map (fun b => .embedBatch b.1)
    ++ [.insertDocs values.length]

/-- Event trace of the modular `initialize_collection`. -/
def modular_build_trace (name : Str)
    (provider : Nat → List Str → Except Str EmbedBatch)
    (values : List Str) (completion : List (Nat × List Str)) : List BuildEvent :=
  if values.isEmpty then []
  else
    [.deleteCollection name, .createCollection name]
      ++ completion.map (fun b => .embedBatch b.1)
      ++ (let p := modular_assemble provider completion
          if !p.2.isEmpty && !p.1.isEmpty then [.insertDocs p.1.length] else [])

/-- Claim C6's ordering: after a `deleteCollection` event, no batch is
embedded (i.e. the delete happens only once all batches have returned). -/
def noEmbedAfterDelete : List BuildEvent → Bool
  | [] => true
  | .deleteCollection _ :: t => t.all (fun e => !isEmbedEvent e) && noEmbedAfterDelete t
  | _ :: t => noEmbedAfterDelete t

/-- Every bulk insert happens after every batch embedding. -/
def insertsAfterEmbeds : List BuildEvent → Bool
  | [] => true
  | .insertDocs _ :: t => t.all (fun e => !isEmbedEvent e) && insertsAfterEmbeds t
  | _ :: t => insertsAfterEmbeds t

/-- C6 counterexample: in both builders the pre-existing collection is
deleted (and the fresh one created) before any embedding batch returns —
already with a single one-value batch the delete event precedes the
embed event, so readers can observe the empty, just-recreated collection
during the embedding phase. -/
theorem C6_counterexample :
    noEmbedAfterDelete
        (mono_build_trace ("tipo".data) [("Iluminação".data)]
          [(0, [("Iluminação".data)])]) = false
    ∧ noEmbedAfterDelete
        (modular_build_trace ("tipo_collection".data) (fun _ _ => .ok [[1]])
          [("Iluminação".data)] [(0, [("Iluminação".data)])]) = false := by
  exact ⟨rfl, rfl⟩

lemma insertsAfterEmbeds_delete_create (name : Str) (t : List BuildEvent) :
    insertsAfterEmbeds (BuildEvent.deleteCollection name
      :: BuildEvent.createCollection name :: t) = insertsAfterEmbeds t := rfl

lemma insertsAfterEmbeds_embeds (bs : List (Nat × List Str)) (t : List BuildEvent) :
    insertsAfterEmbeds ((bs.map fun b => BuildEvent.embedBatch b.1) ++ t)
      = insertsAfterEmbeds t := by
  induction bs with
  | nil => rfl
  | cons b rest ih => exact ih

lemma filter_insert_embeds (bs : List (Nat × List Str)) :
    (bs.map fun b => BuildEvent.embedBatch b.1).filter isInsertEvent = [] := by
  induction bs with
  | nil => rfl
  | cons b rest ih => simpa [List.filter_cons, isInsertEvent] using ih

/-- C6 amended: in both builders the rebuild of one collection (for a
nonempty value set) starts by deleting the pre-existing collection and
creating the fresh one — before any embedding batch returns — and ends
with at most one bulk insert, which happens only once all batches have
returned; no insert interleaves with the embedding phase. -/
theorem C6_amended_lifecycle (name : Str)
    (provider : Nat → List Str → Except Str EmbedBatch)
    (values : List Str) (completion : List (Nat × List Str))
    (hv : values ≠ []) :
    (mono_build_trace name values completion).take 2
      = [.deleteCollection name, .createCollection name]
    ∧ (modular_build_trace name provider values completion).take 2
      = [.deleteCollection name, .createCollection name]
    ∧ insertsAfterEmbeds (mono_build_trace name values completion) = true
    ∧ insertsAfterEmbeds (modular_build_trace name provider values completion) = true
    ∧ ((mono_build_trace name values completion).filter isInsertEvent).length ≤ 1
    ∧ ((modular_build_trace name provider values completion).filter isInsertEvent).length ≤ 1 := by
  have hvE : values.isEmpty = false := by simpa [List.isEmpty_iff] using hv
  refine ⟨rfl, ?_, ?_, ?_, ?_, ?_⟩
  · simp [modular_build_trace, hvE]
  · unfold mono_build_trace
    simp only [List.append_assoc, List.cons_append, List.nil_append]
    rw [insertsAfterEmbeds_delete_create, insertsAfterEmbeds_embeds]
    rfl
  · unfold modular_build_trace
    simp only [hvE, Bool.false_eq_true, if_false, List.append_assoc, List.cons_append,
      List.nil_append]
    rw [insertsAfterEmbeds_delete_create, insertsAfterEmbeds_embeds]
    split <;> rfl
  · unfold mono_build_trace
    simp only [List.append_assoc, List.cons_append, List.nil_append]
    simp [List.filter_cons, List.filter_append, isInsertEvent, filter_insert_embeds]
  · unfold modular_build_trace
    simp only [hvE, Bool.false_eq_true, if_false, List.append_assoc, List.cons_append,
      List.nil_append]
    split
    · simp [List.filter_cons, List.filter_append, isInsertEvent, filter_insert_embeds]
    · simp [List.filter_cons, List.filter_append, isInsertEvent, filter_insert_embeds]

/-- Witness for C6's amended statement on a one-value build. -/
theorem C6_witness :
    (mono_build_trace ("tipo".data) [("Iluminação".data)] [(0, [("Iluminação".data)])]).take 2
      = [.deleteCollection ("tipo".data), .createCollection ("tipo".data)]
    ∧ (modular_build_trace ("tipo".data) (fun _ _ => .ok [[1]])
        [("Iluminação".data)] [(0, [("Iluminação".data)])]).take 2
      = [.deleteCollection ("tipo".data), .createCollection ("tipo".data)]
    ∧ insertsAfterEmbeds
        (mono_build_trace ("tipo".data) [("Iluminação".data)] [(0, [("Iluminação".data)])]) = true
    ∧ insertsAfterEmbeds
        (modular_build_trace ("tipo".data) (fun _ _ => .ok [[1]])
          [("Iluminação".data)] [(0, [("Iluminação".data)])]) = true
    ∧ ((mono_build_trace ("tipo".data) [("Iluminação".data)]
        [(0, [("Iluminação".data)])]).filter isInsertEvent).length ≤ 1
    ∧ ((modular_build_trace ("tipo".data) (fun _ _ => .ok [[1]])
        [("Iluminação".data)] [(0, [("Iluminação".data)])]).filter isInsertEvent).length ≤ 1 :=
  C6_amended_lifecycle ("tipo".data) (fun _ _ => .ok [[1]])
    [("Iluminação".data)] [(0, [("Iluminação".data)])] (by decide)

/-! ## C3 — fate of a batch whose embedding attempts all fail -/

/-- C3 counterexample: in the modular builder (the one with the 3-attempt
retry loop the claim describes), a batch whose attempts all fail returns
`[]` — not zero-vectors — and `initialize_collection` then drops it, so
its values end up with no vector at all: with a single batch nothing is
inserted. -/
theorem C3_counterexample :
    create_embeddings_batch (fun _ _ => .error ("rate limit".data))
        [("Iluminação Pública".data)] = []
    ∧ modular_initialize_insert ("tipo_collection".data)
        (fun _ _ => .error ("rate limit".data))
        [(0, [("Iluminação Pública".data)])] = none := by
  exact ⟨rfl, rfl⟩

lemma chunkAux_flatten (bs : Nat) : ∀ (fuel : Nat) (l : List Str),
    (chunkAux bs fuel l).flatten = l := by
  intro fuel
  induction fuel with
  | zero => intro l; cases l <;> simp [chunkAux]
  | succ n ih =>
    intro l
    cases l with
    | nil => rfl
    | cons x xs =>
      simp only [chunkAux, List.flatten_cons, ih]
      rw [List.cons_append, List.take_append_drop]

lemma chunkList_flatten (bs : Nat) (l : List Str) : (chunkList bs l).flatten = l :=
  chunkAux_flatten bs l.length l

lemma insertByKey_perm (x : Nat × EmbedBatch) (l : List (Nat × EmbedBatch)) :
    (insertByKey x l).Perm (x :: l) := by
  induction l with
  | nil => exact List.Perm.refl _
  | cons y ys ih =>
    unfold insertByKey
    split
    · exact List.Perm.refl _
    · exact (ih.cons y).trans (List.Perm.swap x y ys)

lemma sortByKey_perm (l : List (Nat × EmbedBatch)) : (sortByKey l).Perm l := by
  induction l with
  | nil => exact List.Perm.refl _
  | cons x xs ih => exact (insertByKey_perm x (sortByKey xs)).trans (ih.cons x)

lemma mono_process_batch_len (embed : List Str → Except Str EmbedBatch)
    (hlen : ∀ ts es, embed ts = .ok es → es.length = ts.length)
    (b : Nat × List Str) : (mono_process_batch embed b).2.length = b.2.length := by
  unfold mono_process_batch
  cases hx : embed b.2 with
  | ok es => simpa using hlen b.2 es hx
  | error e =>
    show (List.replicate b.2.length (List.replicate 3072 (0 : ℚ))).length = b.2.length
    rw [List.length_replicate]

/-- C3 amended: in the modular builder, a batch whose 3 embedding
attempts all fail produces the empty embedding list and is dropped from
the insertion — its values get no vector; in the monolithic parallel
builder it is the single-attempt `process_batch` that degrades a failed
batch to zero-vectors of dimension 3072 (one per text) and still inserts
it, so there every extracted value keeps some vector: the documents are
exactly the values and the assembled embedding count equals the value
count. -/
theorem C3_amended_failure_degradation (name : Str)
    (provider : Nat → List Str → Except Str EmbedBatch)
    (embed : List Str → Except Str EmbedBatch)
    (texts : List Str) (i : Nat) (b : Nat × List Str) (e : Str)
    (values : List Str) (completion : List (Nat × List Str))
    (hfail : ∀ a, ∃ err, provider a (validTexts texts) = .error err)
    (hb : embed b.2 = .error e)
    (hlen : ∀ ts es, embed ts = .ok es → es.length = ts.length)
    (hc : completion.Perm ((chunkList BATCH_SIZE values).enum)) :
    create_embeddings_batch provider texts = []
    ∧ modular_assemble provider [(i, texts)] = ([], [])
    ∧ mono_process_batch embed b
        = (b.1, List.replicate b.2.length (List.replicate 3072 (0 : ℚ)))
    ∧ (mono_initialize_collection name embed values completion).documents = values
    ∧ (mono_initialize_collection name embed values completion).embeddings.length
        = values.length := by
  obtain ⟨e0, h0⟩ := hfail 0
  obtain ⟨e1, h1⟩ := hfail 1
  obtain ⟨e2, h2⟩ := hfail 2
  have hceb : create_embeddings_batch provider texts = [] := by
    unfold create_embeddings_batch
    split
    · rfl
    · split
      · rfl
      · simp [embedAttempts, h0, h1, h2]
  refine ⟨hceb, ?_, ?_, rfl, ?_⟩
  · simp [modular_assemble, hceb]
  · unfold mono_process_batch
    rw [hb]
  · unfold mono_initialize_collection mono_create_embeddings_parallel
    rw [List.length_flatMap]
    have hsp : ((sortByKey (completion.map (mono_process_batch embed))).map
          (List.length ∘ Prod.snd)).sum
        = ((completion.map (mono_process_batch embed)).map (List.length ∘ Prod.snd)).sum :=
      ((sortByKey_perm _).map _).sum_eq
    rw [hsp, List.map_map]
    have hmc : completion.map ((List.length ∘ Prod.snd) ∘ mono_process_batch embed)
        = completion.map (fun b => b.2.length) :=
      List.map_congr_left (fun x _ => mono_process_batch_len embed hlen x)
    rw [hmc]
    have hps : (completion.map fun b => b.2.length).sum
        = (((chunkList BATCH_SIZE values).enum).map fun b => b.2.length).sum :=
      (hc.map _).sum_eq
    rw [hps]
    have hen : ((chunkList BATCH_SIZE values).enum).map (fun b => b.2.length)
        = (chunkList BATCH_SIZE values).map List.length := by
      rw [show (fun b : Nat × List Str => b.2.length)
          = List.length ∘ Prod.snd from rfl, ← List.map_map, List.enum_map_snd]
    rw [hen, ← List.length_flatten, chunkList_flatten]

/-- Witness for C3's amended statement with an always-failing provider on
one batch and a one-batch monolithic build whose embedding also fails. -/
theorem C3_witness :
    create_embeddings_batch (fun _ _ => .error ("boom".data)) [("Ruído".data)] = []
    ∧ modular_assemble (fun _ _ => .error ("boom".data)) [(0, [("Ruído".data)])] = ([], [])
    ∧ mono_process_batch (fun _ => .error ("boom".data)) (0, [("Ruído".data)])
        = (0, List.replicate 1 (List.replicate 3072 (0 : ℚ)))
    ∧ (mono_initialize_collection ("tipo".data) (fun _ => .error ("boom".data))
        [("Ruído".data)] ((chunkList BATCH_SIZE [("Ruído".data)]).enum)).documents
        = [("Ruído".data)]
    ∧ (mono_initialize_collection ("tipo".data) (fun _ => .error ("boom".data))
        [("Ruído".data)] ((chunkList BATCH_SIZE [("Ruído".data)]).enum)).embeddings.length
        = 1 := by
  have h := C3_amended_failure_degradation ("tipo".data)
    (fun _ _ => .error ("boom".data)) (fun _ => .error ("boom".data))
    [("Ruído".data)] 0 (0, [("Ruído".data)]) ("boom".data)
    [("Ruído".data)] ((chunkList BATCH_SIZE [("Ruído".data)]).enum)
    (fun a => ⟨"boom".data, rfl⟩) rfl
    (fun ts es hts => by simp at hts) (List.Perm.refl _)
  exact h

/-! ## C2 — id/document pairing across rebuilds -/

lemma insertByKey_sorted (x : Nat × EmbedBatch) (l : List (Nat × EmbedBatch))
    (h : l.Pairwise (fun a b => a.1 ≤ b.1)) :
    (insertByKey x l).Pairwise (fun a b => a.1 ≤ b.1) := by
  induction l with
  | nil => simp [insertByKey]
  | cons y ys ih =>
    rcases List.pairwise_cons.mp h with ⟨hy, hys⟩
    unfold insertByKey
    split
    case isTrue hle =>
      refine List.pairwise_cons.mpr ⟨?_, h⟩
      intro z hz
      rcases List.mem_cons.mp hz with rfl | hz
      · exact hle
      · exact le_trans hle (hy z hz)
    case isFalse hgt =>
      refine List.pairwise_cons.mpr ⟨?_, ih hys⟩
      intro z hz
      rcases List.mem_cons.mp ((insertByKey_perm x ys).mem_iff.mp hz) with rfl | hz
      · exact le_of_not_le hgt
      · exact hy z hz

lemma sortByKey_sorted (l : List (Nat × EmbedBatch)) :
    (sortByKey l).Pairwise (fun a b => a.1 ≤ b.1) := by
  induction l with
  | nil => exact List.Pairwise.nil
  | cons x xs ih => exact insertByKey_sorted x (sortByKey xs) ih

lemma sortByKey_eq_of_perm (l₁ l₂ : List (Nat × EmbedBatch)) (hp : l₁.Perm l₂)
    (hnd : (l₁.map Prod.fst).Nodup) : sortByKey l₁ = sortByKey l₂ := by
  have p1 := sortByKey_perm l₁
  have p2 := sortByKey_perm l₂
  have hperm : (sortByKey l₁).Perm (sortByKey l₂) := p1.trans (hp.trans p2.symm)
  have hnd1 : ((sortByKey l₁).map Prod.fst).Nodup := ((p1.map Prod.fst).nodup_iff).mpr hnd
  have hnd2 : ((sortByKey l₂).map Prod.fst).Nodup :=
    ((hperm.map Prod.fst).nodup_iff).mp hnd1
  have hstrict : ∀ (l : List (Nat × EmbedBatch)),
      l.Pairwise (fun a b => a.1 ≤ b.1) → (l.map Prod.fst).Nodup →
      l.Pairwise (fun a b => a.1 < b.1) := by
    intro l hle hnod
    rw [List.Nodup, List.pairwise_map] at hnod
    exact (hle.and hnod).imp fun h => lt_of_le_of_ne h.1 h.2
  haveI : IsAntisymm (Nat × EmbedBatch) (fun a b => a.1 < b.1) :=
    ⟨fun a b h1 h2 => absurd h1 (lt_asymm h2)⟩
  exact List.eq_of_perm_of_sorted hperm
    (hstrict _ (sortByKey_sorted l₁) hnd1)
    (hstrict _ (sortByKey_sorted l₂) hnd2)

lemma mono_process_batch_fst (embed : List Str → Except Str EmbedBatch)
    (b : Nat × List Str) : (mono_process_batch embed b).1 = b.1 := by
  unfold mono_process_batch
  cases embed b.2 <;> rfl

/-- C2 amended: the monolithic builder is order-stable — its inserted
documents are the value list itself, its ids are `{collection}_{i}` over
`range(len(values))`, and the assembled embeddings are independent of
the batch completion order (the `results` dict is drained through
`sorted(results.keys())`), so two rebuilds from an unchanged value list
with the same provider outcomes insert identical collections; the
modular builder instead extends documents in `as_completed` order, so
its id/document pairing depends on thread scheduling (see the
counterexample). -/
theorem C2_amended_mono_order_stable (name : Str)
    (embed : List Str → Except Str EmbedBatch) (values : List Str)
    (c₁ c₂ : List (Nat × List Str))
    (h₁ : c₁.Perm ((chunkList BATCH_SIZE values).enum))
    (h₂ : c₂.Perm ((chunkList BATCH_SIZE values).enum)) :
    mono_initialize_collection name embed values c₁
      = mono_initialize_collection name embed values c₂
    ∧ (mono_initialize_collection name embed values c₁).documents = values
    ∧ (mono_initialize_collection name embed values c₁).ids
      = (List.range values.length).map (idFor name) := by
  refine ⟨?_, rfl, rfl⟩
  have hfst : ∀ c : List (Nat × List Str),
      (c.map (mono_process_batch embed)).map Prod.fst = c.map Prod.fst := by
    intro c
    rw [List.map_map]
    exact List.map_congr_left fun b _ => mono_process_batch_fst embed b
  have hkey : sortByKey (c₁.map (mono_process_batch embed))
      = sortByKey (c₂.map (mono_process_batch embed)) := by
    apply sortByKey_eq_of_perm
    · exact (h₁.map _).trans ((h₂.map _).symm)
    · rw [hfst c₁]
      have hperm := h₁.map Prod.fst
      rw [List.enum_map_fst] at hperm
      exact hperm.nodup_iff.mpr (List.nodup_range _)
  unfold mono_initialize_collection mono_create_embeddings_parallel
  rw [hkey]

/-- Witness for C2's amended statement on a two-value build (one batch,
identity completion order on both runs). -/
theorem C2_witness :
    mono_initialize_collection ("tipo".data) (fun ts => .ok (ts.map fun _ => [1]))
        [("a".data), ("b".data)] ((chunkList BATCH_SIZE [("a".data), ("b".data)]).enum)
      = mono_initialize_collection ("tipo".data) (fun ts => .ok (ts.map fun _ => [1]))
        [("a".data), ("b".data)] ((chunkList BATCH_SIZE [("a".data), ("b".data)]).enum)
    ∧ (mono_initialize_collection ("tipo".data) (fun ts => .ok (ts.map fun _ => [1]))
        [("a".data), ("b".data)]
        ((chunkList BATCH_SIZE [("a".data), ("b".data)]).enum)).documents
      = [("a".data), ("b".data)]
    ∧ (mono_initialize_collection ("tipo".data) (fun ts => .ok (ts.map fun _ => [1]))
        [("a".data), ("b".data)]
        ((chunkList BATCH_SIZE [("a".data), ("b".data)]).enum)).ids
      = (List.range ([("a".data), ("b".data)] : List Str).length).map (idFor ("tipo".data)) :=
  C2_amended_mono_order_stable ("tipo".data) (fun ts => .ok (ts.map fun _ => [1]))
    [("a".data), ("b".data)]
    ((chunkList BATCH_SIZE [("a".data), ("b".data)]).enum)
    ((chunkList BATCH_SIZE [("a".data), ("b".data)]).enum)
    (List.Perm.refl _) (List.Perm.refl _)

/-- The 1001 distinct values of a two-batch rebuild at
`BATCH_SIZE = 1000` (the decimal numerals 0 … 1000). -/
def c2Values : List Str := (List.range 1001).map (Nat.toDigits 10)

/-- A deterministic embedding provider mapping every text to `[1]`. -/
def c2Provider : Nat → List Str → Except Str EmbedBatch :=
  fun _ ts => .ok (ts.map fun _ => [1])

/-- The enumerated batches of that rebuild. -/
def c2Batches : List (Nat × List Str) := (chunkList BATCH_SIZE c2Values).enum

set_option maxRecDepth 1000000 in
/-- C2 counterexample: the modular builder extends `all_texts` in
`as_completed` (completion) order, so two rebuilds from the same
1001-value list whose two batches complete in opposite orders produce the
same ids but pair them with different documents — id
`tipo_collection_0` carries the document `"0"` in one run and `"1000"`
in the other. -/
theorem C2_counterexample :
    (modular_initialize_insert ("tipo_collection".data) c2Provider c2Batches).map
        (fun c => c.ids.head?)
      = (modular_initialize_insert ("tipo_collection".data) c2Provider
          c2Batches.reverse).map (fun c => c.ids.head?)
    ∧ (modular_initialize_insert ("tipo_collection".data) c2Provider c2Batches).map
        (fun c => c.documents.head?)
      ≠ (modular_initialize_insert ("tipo_collection".data) c2Provider
          c2Batches.reverse).map (fun c => c.documents.head?) := by
  constructor
  · rfl
  · decide
